import Mathlib

/-!
Verification of the resilient-LLM-invoker design of the Agentic-AI-CV-Analysis
repository.  The Python sources embedded here are the `CircuitBreaker`,
`LLMClient.call_with_retry` and `AgentDegradationStrategy.cv_parser_fallback`
classes of `agents/README.md`, and the `AnalyticsService` class of the
production frontend (`analytics.js`).  Machine time is modelled as a
natural-number clock that is threaded explicitly; the external LLM endpoint is
modelled as an oracle mapping the index of a network call to its outcome.
The validation and response-cleaning helpers of the JD parser
(`agent_validation.py`, `agent_llm_core.py`) are documented but their source
files are absent, so they are modelled from the specification text and marked
as such.
-/

namespace CVAnalysis

/-! ## Circuit breaker (agents/README.md, `class CircuitBreaker`) -/

inductive CBState where
  | CLOSED
  | OPEN
  | HALF_OPEN
  deriving DecidableEq, Repr

structure CircuitBreaker where
  failure_threshold : Nat
  recovery_timeout : Nat
  failure_count : Nat
  last_failure_time : Option Nat
  state : CBState
  deriving DecidableEq, Repr

/-- `CircuitBreaker.__init__(failure_threshold=5, recovery_timeout=60)`. -/
def mkCircuitBreaker (failure_threshold recovery_timeout : Nat) : CircuitBreaker :=
  { failure_threshold := failure_threshold
    recovery_timeout := recovery_timeout
    failure_count := 0
    last_failure_time := none
    state := CBState.CLOSED }

/-- `CircuitBreaker.is_open`, with `time.time()` passed as `now`.  Returns the
boolean result together with the (possibly mutated) breaker.  The
`OPEN`/`none` row is unreachable on reachable states: `OPEN` is only ever set
by `record_failure`, which also records a failure time (in Python this row
would raise a `TypeError` when subtracting `None`). -/
def CircuitBreaker.is_open (cb : CircuitBreaker) (now : Nat) : Bool × CircuitBreaker :=
  match cb.state, cb.last_failure_time with
  | CBState.OPEN, some t =>
      if cb.recovery_timeout < now - t then
        (false, { cb with state := CBState.HALF_OPEN })
      else
        (true, cb)
  | CBState.OPEN, none => (true, cb)
  | _, _ => (false, cb)

/-- `CircuitBreaker.record_success`. -/
def CircuitBreaker.record_success (cb : CircuitBreaker) : CircuitBreaker :=
  { cb with failure_count := 0, state := CBState.CLOSED }

/-- `CircuitBreaker.record_failure`, with `time.time()` passed as `now`. -/
def CircuitBreaker.record_failure (cb : CircuitBreaker) (now : Nat) : CircuitBreaker :=
  { cb with
    failure_count := cb.failure_count + 1
    last_failure_time := some now
    state :=
      if cb.failure_threshold ≤ cb.failure_count + 1 then CBState.OPEN else cb.state }

/-- Repeated `record_failure` at the given sequence of failure times. -/
def failTimes (cb : CircuitBreaker) (ts : List Nat) : CircuitBreaker :=
  ts.foldl CircuitBreaker.record_failure cb

/-- States of the breaker reachable from a freshly constructed one through its
three public methods, with arbitrary clock readings. -/
inductive Reachable : CircuitBreaker → Prop where
  | init : ∀ threshold timeout : Nat, Reachable (mkCircuitBreaker threshold timeout)
  | stepIsOpen : ∀ (cb : CircuitBreaker) (now : Nat), Reachable cb →
      Reachable ((cb.is_open now).2)
  | stepSuccess : ∀ cb : CircuitBreaker, Reachable cb → Reachable cb.record_success
  | stepFailure : ∀ (cb : CircuitBreaker) (now : Nat), Reachable cb →
      Reachable (cb.record_failure now)

/-! ## LLM client (agents/README.md, `class LLMClient`)

`make_llm_call` is external: it is modelled by an oracle assigning to the
index of each network call either a response string or a raised exception. -/

inductive LLMError where
  | timeoutError
  | connectionError
  | otherError (msg : String)
  deriving DecidableEq, Repr

inductive LLMOutcome where
  | success (response : String)
  | raises (e : LLMError)
  deriving DecidableEq, Repr

/-- Exceptions that `call_with_retry` can let escape to its caller. -/
inductive CallException where
  | circuitBreakerOpen
  | llmProcessing
  | uncaught (e : LLMError)
  deriving DecidableEq, Repr

/-- The mutable context of one `call_with_retry` invocation: the shared
breaker, the clock, and the number of network calls (`make_llm_call`
invocations, primary or fallback model) performed so far. -/
structure RunState where
  cb : CircuitBreaker
  now : Nat
  calls : Nat
  deriving DecidableEq, Repr

/-- `LLMClient.try_fallback_model`: one more `make_llm_call` with the fallback
model; its exceptions propagate and its success does not touch the breaker. -/
def try_fallback_model (oracle : Nat → LLMOutcome) (s : RunState) :
    Except CallException String × RunState :=
  match oracle s.calls with
  | LLMOutcome.success r => (Except.ok r, { s with calls := s.calls + 1 })
  | LLMOutcome.raises e =>
      (Except.error (CallException.uncaught e), { s with calls := s.calls + 1 })

/-- The body of `for attempt in range(self.retry_attempts)` inside
`call_with_retry`, recursing on the number of remaining iterations (`fuel`),
so the current value of `attempt` is `retry_attempts - fuel`.  When the loop
exits without returning, Python raises `LLMProcessingException`.  Raising
`CircuitBreakerOpenException` inside the `try` is not caught by the
`except (TimeoutError, ConnectionError)` clause, so it escapes; so does any
`make_llm_call` exception other than those two. -/
def call_loop (oracle : Nat → LLMOutcome) (retry_attempts : Nat) :
    Nat → RunState → Except CallException String × RunState
  | 0, s => (Except.error CallException.llmProcessing, s)
  | fuel + 1, s =>
    let checked := s.cb.is_open s.now
    let s1 : RunState := { s with cb := checked.2 }
    if checked.1 then
      (Except.error CallException.circuitBreakerOpen, s1)
    else
      match oracle s1.calls with
      | LLMOutcome.success r =>
          (Except.ok r, { s1 with cb := s1.cb.record_success, calls := s1.calls + 1 })
      | LLMOutcome.raises e =>
          if e = LLMError.timeoutError ∨ e = LLMError.connectionError then
            let s2 : RunState :=
              { s1 with cb := s1.cb.record_failure s1.now, calls := s1.calls + 1 }
            if fuel = 0 then
              try_fallback_model oracle s2
            else
              call_loop oracle retry_attempts fuel
                { s2 with now := s2.now + 2 ^ (retry_attempts - (fuel + 1)) }
          else
            (Except.error (CallException.uncaught e), { s1 with calls := s1.calls + 1 })

structure LLMClient where
  retry_attempts : Nat
  timeout : Nat
  circuit_breaker : CircuitBreaker

/-- `LLMClient.call_with_retry(prompt, model_config)` invoked at clock `now`.
The prompt and model configuration only flow into `make_llm_call`, which the
oracle abstracts, so they are not carried explicitly. -/
def call_with_retry (client : LLMClient) (oracle : Nat → LLMOutcome) (now : Nat) :
    Except CallException String × RunState :=
  call_loop oracle client.retry_attempts client.retry_attempts
    { cb := client.circuit_breaker, now := now, calls := 0 }

/-! ## Deterministic degradation (agents/README.md, `AgentDegradationStrategy`) -/

structure CVFallbackResult where
  success : Bool
  degraded : Bool
  raw_text : String
  message : String
  deriving DecidableEq, Repr

/-- `AgentDegradationStrategy.cv_parser_fallback`; `extract_plain_text` is the
basic non-LLM text extraction, passed as a function parameter. -/
def cv_parser_fallback (extract_plain_text : String → String)
    (file_content : String) : CVFallbackResult :=
  { success := true
    degraded := true
    raw_text := extract_plain_text file_content
    message := "Limited parsing available - LLM service unavailable" }

/-! ## Analytics service (production frontend, `class AnalyticsService`) -/

/-- The `eventData` object assembled by `AnalyticsService.trackEvent`. -/
structure AnalyticsEvent where
  event_type : String
  event_action : String
  event_label : Option String
  element_id : Option String
  metadata : List (String × String)
  page_url : String
  page_title : String
  timestamp : String
  deriving DecidableEq, Repr

/-- Ambient browser state read by `trackEvent` (`window.location`,
`document.title`, `navigator.userAgent`, viewport size, and the timestamp). -/
structure PageEnv where
  page_url : String
  page_title : String
  timestamp : String
  user_agent : String
  viewport_width : Nat
  viewport_height : Nat
  deriving DecidableEq, Repr

/-- The mutable fields of an `AnalyticsService` instance. -/
structure AnalyticsState where
  sessionId : String
  userId : Option String
  eventQueue : List AnalyticsEvent
  isOnline : Bool
  deriving DecidableEq, Repr

/-- `AnalyticsService.flushEventQueue`.  Returns the new state together with
the batch handed to delivery (`eventsToSend`); delivery only logs, and the
`catch` clause never re-queues the batch. -/
def flushEventQueue (s : AnalyticsState) : AnalyticsState × List AnalyticsEvent :=
  if s.isOnline = false ∨ s.eventQueue = [] then (s, [])
  else ({ s with eventQueue := [] }, s.eventQueue)

/-- The `eventData` literal built at the top of `trackEvent`, spreading the
caller metadata with the user agent, viewport, session id and page info. -/
def mkEventData (s : AnalyticsState) (env : PageEnv) (eventType eventAction : String)
    (eventLabel elementId : Option String) (metadata : List (String × String)) :
    AnalyticsEvent :=
  { event_type := eventType
    event_action := eventAction
    event_label := eventLabel
    element_id := elementId
    metadata := metadata ++
      [("user_agent", env.user_agent),
       ("viewport_width", toString env.viewport_width),
       ("viewport_height", toString env.viewport_height),
       ("session_id", s.sessionId)]
    page_url := env.page_url
    page_title := env.page_title
    timestamp := env.timestamp }

/-- `AnalyticsService.trackEvent`: push the event, then flush immediately when
online and the queue has reached 5 events.  Returns the new state and the
batch sent by the triggered flush (empty when no flush happened). -/
def trackEvent (s : AnalyticsState) (env : PageEnv) (eventType eventAction : String)
    (eventLabel elementId : Option String) (metadata : List (String × String)) :
    AnalyticsState × List AnalyticsEvent :=
  let eventData := mkEventData s env eventType eventAction eventLabel elementId metadata
  let s1 : AnalyticsState := { s with eventQueue := s.eventQueue ++ [eventData] }
  if s1.isOnline = true ∧ 5 ≤ s1.eventQueue.length then
    flushEventQueue s1
  else
    (s1, [])

/-! ## Required-field validation (JD parser)

Modelled from the spec: `agent_validation.py` (`validate_parsed_data`,
`_calculate_completeness_score`) is documented in `agents/jd_parser/README.md`
but its source file is not in the repository snapshot. -/

/-- Modelled from the spec: whether the parsed object carries the named
field.  A parsed object is a finite map from field names to extracted
values. -/
def fieldPresent (obj : List (String × String)) (f : String) : Bool :=
  obj.any (fun p => p.1 = f)

structure ValidatedResult where
  fields : List (String × String)
  parsing_notes : List String
  completeness : ℚ
  deriving DecidableEq, Repr

/-- Modelled from the spec: `agent_validation.py` is absent from the snapshot,
so this follows the specification text: "Validate parsed object against the
required-field list; missing fields are filled with empty defaults and
recorded in `parsing_notes`; a completeness score is computed as (fields
present / fields expected)." -/
def validate_parsed_data (required : List String) (obj : List (String × String)) :
    ValidatedResult :=
  let missing := required.filter (fun f => !(fieldPresent obj f))
  { fields := obj ++ missing.map (fun f => (f, ""))
    parsing_notes := missing.map (fun f => "Missing required field: " ++ f)
    completeness :=
      ((required.countP (fun f => fieldPresent obj f) : ℚ) / (required.length : ℚ)) }

/-! ## Response cleaning (JD parser / LLM integration)

Modelled from the spec: `_clean_json_response` in `agent_llm_core.py` is
documented but its source file is not in the repository snapshot. -/

/-- Opening markdown code fence as a character sequence: three backticks, the
`json` language tag, and a newline (8 characters). -/
def fence_open : List Char := ("```json\n").data

/-- Closing markdown code fence: a newline then three backticks
(4 characters). -/
def fence_close : List Char := ("\n```").data

/-- A response wrapped in markdown ```json fences. -/
def wrap_json_fences (j : List Char) : List Char := fence_open ++ j ++ fence_close

/-- Modelled from the spec: `_clean_json_response` is absent from the
snapshot, so this follows the specification text: "strip wrapping code-fence
markers", before the strict JSON parse is attempted.  A response that starts
with the opening fence and ends with the closing fence has both removed;
anything else is left unchanged. -/
def strip_code_fences (r : List Char) : List Char :=
  if r.take 8 = fence_open ∧ r.drop (r.length - 4) = fence_close ∧ 12 ≤ r.length then
    (r.drop 8).take (r.length - 12)
  else r

/-! ## Helper lemmas -/

lemma is_open_within_cooldown (cb : CircuitBreaker) (now t : Nat)
    (hs : cb.state = CBState.OPEN) (hl : cb.last_failure_time = some t)
    (hc : now - t ≤ cb.recovery_timeout) :
    cb.is_open now = (true, cb) := by
  unfold CircuitBreaker.is_open
  rw [hs, hl]
  simp only [if_neg (by omega : ¬ cb.recovery_timeout < now - t)]

lemma is_open_past_cooldown (cb : CircuitBreaker) (now t : Nat)
    (hs : cb.state = CBState.OPEN) (hl : cb.last_failure_time = some t)
    (hc : cb.recovery_timeout < now - t) :
    cb.is_open now = (false, { cb with state := CBState.HALF_OPEN }) := by
  unfold CircuitBreaker.is_open
  rw [hs, hl]
  simp only [if_pos hc]

lemma is_open_preserves_count (cb : CircuitBreaker) (now : Nat) :
    ((cb.is_open now).2).failure_count = cb.failure_count := by
  unfold CircuitBreaker.is_open
  rcases h : cb.state <;> rcases h2 : cb.last_failure_time <;> simp
  split <;> rfl

lemma is_open_snd_cases (cb : CircuitBreaker) (now : Nat) :
    (cb.is_open now).2 = cb ∨
      (cb.state = CBState.OPEN ∧
        (cb.is_open now).2 = { cb with state := CBState.HALF_OPEN }) := by
  unfold CircuitBreaker.is_open
  rcases hs : cb.state <;> rcases hl : cb.last_failure_time <;> simp
  split
  · exact Or.inr rfl
  · exact Or.inl rfl

lemma call_open_skips (client : LLMClient) (oracle : Nat → LLMOutcome) (now t ra : Nat)
    (hra : client.retry_attempts = ra + 1)
    (hs : client.circuit_breaker.state = CBState.OPEN)
    (hl : client.circuit_breaker.last_failure_time = some t)
    (hc : now - t ≤ client.circuit_breaker.recovery_timeout) :
    call_with_retry client oracle now =
      (Except.error CallException.circuitBreakerOpen,
       { cb := client.circuit_breaker, now := now, calls := 0 }) := by
  have hopen := is_open_within_cooldown client.circuit_breaker now t hs hl hc
  simp [call_with_retry, hra, call_loop, hopen]

lemma call_first_success (client : LLMClient) (oracle : Nat → LLMOutcome) (now : Nat)
    (r : String) (ra : Nat)
    (hra : client.retry_attempts = ra + 1)
    (hopen : (client.circuit_breaker.is_open now).1 = false)
    (h0 : oracle 0 = LLMOutcome.success r) :
    call_with_retry client oracle now =
      (Except.ok r,
       { cb := ((client.circuit_breaker.is_open now).2).record_success,
         now := now, calls := 1 }) := by
  simp [call_with_retry, hra, call_loop, hopen, h0]

lemma call_fatal_propagates (client : LLMClient) (oracle : Nat → LLMOutcome) (now : Nat)
    (m : String) (ra : Nat)
    (hra : client.retry_attempts = ra + 1)
    (hopen : (client.circuit_breaker.is_open now).1 = false)
    (h0 : oracle 0 = LLMOutcome.raises (LLMError.otherError m)) :
    call_with_retry client oracle now =
      (Except.error (CallException.uncaught (LLMError.otherError m)),
       { cb := (client.circuit_breaker.is_open now).2, now := now, calls := 1 }) := by
  simp [call_with_retry, hra, call_loop, hopen, h0]

lemma try_fallback_calls (oracle : Nat → LLMOutcome) (s : RunState) :
    ((try_fallback_model oracle s).2).calls = s.calls + 1 := by
  unfold try_fallback_model
  split <;> rfl

lemma call_loop_calls_le (oracle : Nat → LLMOutcome) (ra : Nat) :
    ∀ (fuel : Nat) (s : RunState),
      ((call_loop oracle ra fuel s).2).calls ≤ s.calls + fuel + 1 := by
  intro fuel
  induction fuel with
  | zero => intro s; simp [call_loop]
  | succ f ih =>
    intro s
    rw [call_loop]
    dsimp only
    split
    · simp only
      omega
    · split
      · simp only
        omega
      · split
        · split
          · rw [try_fallback_calls]
            simp only
            omega
          · exact le_trans (ih _) (by simp only; omega)
        · simp only
          omega

lemma call_exhaust_three (tmo : Nat) (oracle : Nat → LLMOutcome) (now : Nat)
    (h0 : oracle 0 = LLMOutcome.raises LLMError.timeoutError)
    (h1 : oracle 1 = LLMOutcome.raises LLMError.timeoutError)
    (h2 : oracle 2 = LLMOutcome.raises LLMError.timeoutError) :
    call_with_retry ⟨3, tmo, mkCircuitBreaker 5 60⟩ oracle now =
      (match oracle 3 with
       | LLMOutcome.success r => Except.ok r
       | LLMOutcome.raises e => Except.error (CallException.uncaught e),
       { cb := { failure_threshold := 5, recovery_timeout := 60, failure_count := 3,
                 last_failure_time := some (now + 3), state := CBState.CLOSED },
         now := now + 3, calls := 4 }) := by
  cases h3 : oracle 3 with
  | success r =>
    simp [call_with_retry, call_loop, try_fallback_model, h0, h1, h2, h3,
      CircuitBreaker.is_open, CircuitBreaker.record_failure, mkCircuitBreaker]
  | raises e =>
    simp [call_with_retry, call_loop, try_fallback_model, h0, h1, h2, h3,
      CircuitBreaker.is_open, CircuitBreaker.record_failure, mkCircuitBreaker]

lemma record_failure_threshold (cb : CircuitBreaker) (now : Nat) :
    (cb.record_failure now).failure_threshold = cb.failure_threshold := rfl

lemma failTimes_count (ts : List Nat) :
    ∀ cb : CircuitBreaker, (failTimes cb ts).failure_count = cb.failure_count + ts.length := by
  induction ts with
  | nil => intro cb; simp [failTimes]
  | cons t ts ih =>
    intro cb
    have h := ih (cb.record_failure t)
    simp [failTimes, List.foldl_cons] at h ⊢
    rw [h]
    simp [CircuitBreaker.record_failure]
    omega

lemma failTimes_closed (ts : List Nat) :
    ∀ cb : CircuitBreaker, cb.state = CBState.CLOSED →
      cb.failure_count + ts.length < cb.failure_threshold →
      (failTimes cb ts).state = CBState.CLOSED := by
  induction ts with
  | nil => intro cb hs _; simpa [failTimes] using hs
  | cons t ts ih =>
    intro cb hs hlt
    simp only [failTimes, List.foldl_cons]
    apply ih
    · simp [CircuitBreaker.record_failure]
      rw [if_neg (by simp at hlt; omega)]
      exact hs
    · simp [CircuitBreaker.record_failure]
      simp [List.length_cons] at hlt
      omega

lemma failTimes_open (ts : List Nat) :
    ∀ cb : CircuitBreaker, ts ≠ [] →
      cb.failure_threshold ≤ cb.failure_count + ts.length →
      (failTimes cb ts).state = CBState.OPEN := by
  induction ts with
  | nil => intro cb h _; exact absurd rfl h
  | cons t ts ih =>
    intro cb _ hge
    simp only [failTimes, List.foldl_cons]
    by_cases hts : ts = []
    · subst hts
      simp [List.length_cons] at hge
      simp [failTimes, CircuitBreaker.record_failure]
      intro h
      omega
    · apply ih _ hts
      simp [CircuitBreaker.record_failure]
      simp [List.length_cons] at hge
      omega

lemma reachable_invariant (cb : CircuitBreaker) (h : Reachable cb) :
    (cb.state = CBState.OPEN ∨ cb.state = CBState.HALF_OPEN) →
    cb.failure_threshold ≤ cb.failure_count := by
  induction h with
  | init thr tmo =>
    intro hst
    rcases hst with h | h <;> simp [mkCircuitBreaker] at h
  | stepIsOpen cb now hr ih =>
    intro hst
    rcases is_open_snd_cases cb now with he | ⟨hopen, he⟩
    · rw [he] at hst ⊢; exact ih hst
    · rw [he] at hst ⊢
      exact ih (Or.inl hopen)
  | stepSuccess cb hr ih =>
    intro hst
    simp [CircuitBreaker.record_success] at hst
  | stepFailure cb now hr ih =>
    intro hst
    simp only [CircuitBreaker.record_failure] at hst ⊢
    by_cases hc : cb.failure_threshold ≤ cb.failure_count + 1
    · omega
    · rw [if_neg hc] at hst
      have := ih hst
      omega

lemma fence_open_length : fence_open.length = 8 := rfl

lemma fence_close_length : fence_close.length = 4 := rfl

lemma strip_wrap (j : List Char) :
    strip_code_fences (wrap_json_fences j) = j := by
  have hlen : (wrap_json_fences j).length = 12 + j.length := by
    simp [wrap_json_fences, List.length_append, fence_open_length, fence_close_length]
    omega
  have h1 : (wrap_json_fences j).take 8 = fence_open := by
    have : wrap_json_fences j = fence_open ++ (j ++ fence_close) := by
      simp [wrap_json_fences, List.append_assoc]
    rw [this, List.take_left' fence_open_length]
  have h2 : (wrap_json_fences j).drop ((wrap_json_fences j).length - 4) = fence_close := by
    have heq : wrap_json_fences j = (fence_open ++ j) ++ fence_close := rfl
    have hl2 : (wrap_json_fences j).length - 4 = (fence_open ++ j).length := by
      rw [hlen]
      simp [List.length_append, fence_open_length]
      omega
    rw [hl2, heq, List.drop_left]
  have h3 : 12 ≤ (wrap_json_fences j).length := by omega
  unfold strip_code_fences
  rw [if_pos ⟨h1, h2, h3⟩]
  have h4 : (wrap_json_fences j).drop 8 = j ++ fence_close := by
    have : wrap_json_fences j = fence_open ++ (j ++ fence_close) := by
      simp [wrap_json_fences, List.append_assoc]
    rw [this, List.drop_left' fence_open_length]
  rw [h4, hlen]
  have : 12 + j.length - 12 = j.length := by omega
  rw [this, List.take_left]

lemma strip_unwrapped (j : List Char) (h : j.take 8 ≠ fence_open) :
    strip_code_fences j = j := by
  unfold strip_code_fences
  rw [if_neg (fun hc => h hc.1)]

/-! ## Claim theorems -/

/-- Claim C1, counterexample.  With the breaker OPEN and within cooldown
(elapsed 20 ≤ 60), `call_with_retry` evaluates to a raised
`CircuitBreakerOpenException`: an exception reaches the caller, refuting
"returns a well-formed ParseResult ... and never propagates an exception to
the caller". -/
theorem claim1_counterexample :
    (call_with_retry ⟨3, 60, ⟨5, 60, 5, some 100, CBState.OPEN⟩⟩
        (fun _ => LLMOutcome.success "ok") 120).1 =
      Except.error CallException.circuitBreakerOpen := rfl

/-- Claim C1, amended.  `call_with_retry` never builds a ParseResult: when the
circuit breaker is OPEN and within cooldown it propagates
`CircuitBreakerOpenException` to the caller instead of returning a degraded
result, and on a first-call success it returns the raw response string. -/
theorem claim1_raises_or_returns_raw_string :
    (∀ (client : LLMClient) (oracle : Nat → LLMOutcome) (now t ra : Nat),
      client.retry_attempts = ra + 1 →
      client.circuit_breaker.state = CBState.OPEN →
      client.circuit_breaker.last_failure_time = some t →
      now - t ≤ client.circuit_breaker.recovery_timeout →
      (call_with_retry client oracle now).1 =
        Except.error CallException.circuitBreakerOpen) ∧
    (∀ (client : LLMClient) (oracle : Nat → LLMOutcome) (now : Nat) (r : String) (ra : Nat),
      client.retry_attempts = ra + 1 →
      (client.circuit_breaker.is_open now).1 = false →
      oracle 0 = LLMOutcome.success r →
      (call_with_retry client oracle now).1 = Except.ok r) := by
  constructor
  · intro client oracle now t ra hra hs hl hc
    rw [call_open_skips client oracle now t ra hra hs hl hc]
  · intro client oracle now r ra hra hopen h0
    rw [call_first_success client oracle now r ra hra hopen h0]

/-- Claim C1, witness: both parts of the amended theorem applied at concrete
inputs. -/
theorem claim1_witness :
    (call_with_retry ⟨1, 60, ⟨5, 60, 5, some 0, CBState.OPEN⟩⟩
        (fun _ => LLMOutcome.success "x") 10).1 =
      Except.error CallException.circuitBreakerOpen ∧
    (call_with_retry ⟨1, 60, mkCircuitBreaker 5 60⟩
        (fun _ => LLMOutcome.success "x") 0).1 = Except.ok "x" :=
  ⟨claim1_raises_or_returns_raw_string.1 _ _ 10 0 0 rfl rfl rfl (by decide),
   claim1_raises_or_returns_raw_string.2 _ _ 0 "x" 0 rfl (by decide) rfl⟩

/-- Claim C2, counterexample.  After 5 consecutive `record_failure` calls the
state is OPEN (the first half of the claim holds), but the next invocation,
made within the cooldown, evaluates to a raised `CircuitBreakerOpenException`
with zero network calls: it does NOT "go straight to the fallback extractor",
it raises to the caller. -/
theorem claim2_counterexample :
    (failTimes (mkCircuitBreaker 5 60) [0, 0, 0, 0, 0]).state = CBState.OPEN ∧
    call_with_retry ⟨3, 60, failTimes (mkCircuitBreaker 5 60) [0, 0, 0, 0, 0]⟩
        (fun _ => LLMOutcome.success "primary ok") 30 =
      (Except.error CallException.circuitBreakerOpen,
       { cb := failTimes (mkCircuitBreaker 5 60) [0, 0, 0, 0, 0],
         now := 30, calls := 0 }) :=
  ⟨rfl, rfl⟩

/-- Claim C2, amended.  After exactly N = `failure_threshold` consecutive
`record_failure` calls on a fresh breaker the state becomes OPEN (and stays
CLOSED for fewer than N), and every `call_with_retry` invocation made while
the state is OPEN and the elapsed time is at most the cooldown performs no
network call (`calls = 0`) and raises `CircuitBreakerOpenException` to the
caller (it does not invoke any fallback extractor). -/
theorem claim2_open_after_threshold_then_raises :
    (∀ (thr tmo : Nat) (ts : List Nat), 1 ≤ thr → ts.length = thr →
      (failTimes (mkCircuitBreaker thr tmo) ts).state = CBState.OPEN) ∧
    (∀ (thr tmo : Nat) (ts : List Nat), ts.length < thr →
      (failTimes (mkCircuitBreaker thr tmo) ts).state = CBState.CLOSED) ∧
    (∀ (client : LLMClient) (oracle : Nat → LLMOutcome) (now t ra : Nat),
      client.retry_attempts = ra + 1 →
      client.circuit_breaker.state = CBState.OPEN →
      client.circuit_breaker.last_failure_time = some t →
      now - t ≤ client.circuit_breaker.recovery_timeout →
      call_with_retry client oracle now =
        (Except.error CallException.circuitBreakerOpen,
         { cb := client.circuit_breaker, now := now, calls := 0 })) := by
  refine ⟨?_, ?_, ?_⟩
  · intro thr tmo ts h1 h2
    apply failTimes_open
    · intro h
      subst h
      simp at h2
      omega
    · simp [mkCircuitBreaker]
      omega
  · intro thr tmo ts hlt
    apply failTimes_closed
    · rfl
    · simp [mkCircuitBreaker]
      omega
  · intro client oracle now t ra hra hs hl hc
    exact call_open_skips client oracle now t ra hra hs hl hc

/-- Claim C2, witness: all three parts of the amended theorem applied at
concrete inputs. -/
theorem claim2_witness :
    (failTimes (mkCircuitBreaker 5 60) [10, 20, 30, 40, 50]).state = CBState.OPEN ∧
    (failTimes (mkCircuitBreaker 5 60) [10, 20, 30, 40]).state = CBState.CLOSED ∧
    call_with_retry ⟨3, 60, ⟨5, 60, 5, some 50, CBState.OPEN⟩⟩
        (fun _ => LLMOutcome.success "ok") 80 =
      (Except.error CallException.circuitBreakerOpen,
       { cb := ⟨5, 60, 5, some 50, CBState.OPEN⟩, now := 80, calls := 0 }) :=
  ⟨claim2_open_after_threshold_then_raises.1 5 60 _ (by decide) rfl,
   claim2_open_after_threshold_then_raises.2.1 5 60 _ (by decide),
   claim2_open_after_threshold_then_raises.2.2 _ _ 80 50 2 rfl rfl rfl (by decide)⟩

/-- Claim C3 (confirmed).  If the breaker is OPEN and the elapsed time
strictly exceeds `recovery_timeout`, `is_open` moves it to HALF_OPEN and
returns false (permitting the call); `record_success` resets the counter to 0
and moves the state to CLOSED; composing: a successful `call_with_retry`
started on an OPEN breaker past cooldown passes through HALF_OPEN and ends
CLOSED with counter 0. -/
theorem claim3_half_open_recovery :
    (∀ (cb : CircuitBreaker) (now t : Nat),
      cb.state = CBState.OPEN → cb.last_failure_time = some t →
      cb.recovery_timeout < now - t →
      cb.is_open now = (false, { cb with state := CBState.HALF_OPEN })) ∧
    (∀ cb : CircuitBreaker,
      (cb.record_success).failure_count = 0 ∧ (cb.record_success).state = CBState.CLOSED) ∧
    (∀ (client : LLMClient) (oracle : Nat → LLMOutcome) (now t ra : Nat) (r : String),
      client.retry_attempts = ra + 1 →
      client.circuit_breaker.state = CBState.OPEN →
      client.circuit_breaker.last_failure_time = some t →
      client.circuit_breaker.recovery_timeout < now - t →
      oracle 0 = LLMOutcome.success r →
      ((client.circuit_breaker.is_open now).2).state = CBState.HALF_OPEN ∧
      (call_with_retry client oracle now).1 = Except.ok r ∧
      ((call_with_retry client oracle now).2).cb.state = CBState.CLOSED ∧
      ((call_with_retry client oracle now).2).cb.failure_count = 0) := by
  refine ⟨?_, ?_, ?_⟩
  · intro cb now t hs hl hc
    exact is_open_past_cooldown cb now t hs hl hc
  · intro cb
    exact ⟨rfl, rfl⟩
  · intro client oracle now t ra r hra hs hl hc h0
    have hio := is_open_past_cooldown client.circuit_breaker now t hs hl hc
    have hfst : (client.circuit_breaker.is_open now).1 = false := by rw [hio]
    have hcall := call_first_success client oracle now r ra hra hfst h0
    refine ⟨by rw [hio], by rw [hcall], by rw [hcall]; rfl, by rw [hcall]; rfl⟩

/-- Claim C3, witness: the three parts applied at concrete inputs (breaker
OPEN since time 100, consulted at time 161 with a 60-second timeout). -/
theorem claim3_witness :
    ((⟨5, 60, 5, some 100, CBState.OPEN⟩ : CircuitBreaker).is_open 161 =
      (false, ⟨5, 60, 5, some 100, CBState.HALF_OPEN⟩)) ∧
    ((⟨5, 60, 2, some 7, CBState.OPEN⟩ : CircuitBreaker).record_success.failure_count = 0 ∧
      (⟨5, 60, 2, some 7, CBState.OPEN⟩ : CircuitBreaker).record_success.state =
        CBState.CLOSED) ∧
    ((((⟨1, 60, ⟨5, 60, 5, some 100, CBState.OPEN⟩⟩ : LLMClient).circuit_breaker.is_open
        161).2).state = CBState.HALF_OPEN ∧
     (call_with_retry ⟨1, 60, ⟨5, 60, 5, some 100, CBState.OPEN⟩⟩
        (fun _ => LLMOutcome.success "done") 161).1 = Except.ok "done" ∧
     ((call_with_retry ⟨1, 60, ⟨5, 60, 5, some 100, CBState.OPEN⟩⟩
        (fun _ => LLMOutcome.success "done") 161).2).cb.state = CBState.CLOSED ∧
     ((call_with_retry ⟨1, 60, ⟨5, 60, 5, some 100, CBState.OPEN⟩⟩
        (fun _ => LLMOutcome.success "done") 161).2).cb.failure_count = 0) :=
  ⟨claim3_half_open_recovery.1 _ 161 100 rfl rfl (by decide),
   claim3_half_open_recovery.2.1 _,
   claim3_half_open_recovery.2.2 ⟨1, 60, ⟨5, 60, 5, some 100, CBState.OPEN⟩⟩
     (fun _ => LLMOutcome.success "done") 161 100 0 "done" rfl rfl rfl (by decide) rfl⟩

/-- Claim C4, counterexample.  With `retry_attempts = 3` and every call
failing with a connection error, the run performs 4 network calls (3 primary
attempts plus the `try_fallback_model` call), refuting "at most 3 network
call attempts in total". -/
theorem claim4_counterexample :
    3 < ((call_with_retry ⟨3, 60, mkCircuitBreaker 5 60⟩
        (fun _ => LLMOutcome.raises LLMError.connectionError) 0).2).calls := by decide

/-- Claim C4, amended.  Every invocation performs at most
`retry_attempts + 1` network calls (`retry_attempts` primary attempts, plus
at most one fallback-model call issued after the last failing attempt), and
the loop always terminates.  The concrete all-timeout run with the default
configuration shows the rest of the claim on the code: the failure counter is
incremented on each of the 3 transient errors, and the clock advances by
`2^0 + 2^1 = 3` from the backoff sleeps between consecutive attempts. -/
theorem claim4_attempt_bound :
    (∀ (client : LLMClient) (oracle : Nat → LLMOutcome) (now : Nat),
      ((call_with_retry client oracle now).2).calls ≤ client.retry_attempts + 1) ∧
    call_with_retry ⟨3, 60, mkCircuitBreaker 5 60⟩
        (fun _ => LLMOutcome.raises LLMError.timeoutError) 0 =
      (Except.error (CallException.uncaught LLMError.timeoutError),
       { cb := ⟨5, 60, 3, some 3, CBState.CLOSED⟩, now := 3, calls := 4 }) := by
  constructor
  · intro client oracle now
    have h := call_loop_calls_le oracle client.retry_attempts client.retry_attempts
      ⟨client.circuit_breaker, now, 0⟩
    simpa [call_with_retry] using h
  · rfl

/-- Claim C5, counterexample.  Forcing every attempt (including the
fallback-model call) to fail does not produce the deterministic fallback
extractor's output with `is_degraded = true`: `call_with_retry` instead lets
the timeout exception escape to the caller. -/
theorem claim5_counterexample :
    (call_with_retry ⟨3, 60, mkCircuitBreaker 5 60⟩
        (fun _ => LLMOutcome.raises LLMError.timeoutError) 5).1 =
      Except.error (CallException.uncaught LLMError.timeoutError) := rfl

/-- Claim C5, amended.  `cv_parser_fallback` (the deterministic extractor)
does mark its output with `degraded = true`, but `call_with_retry` never
invokes it: when all `retry_attempts = 3` primary attempts fail with timeouts
on a fresh default breaker, the run issues one extra network call with the
fallback MODEL (call index 3, total `calls = 4`) and returns that call's raw
outcome — its response string on success, its exception otherwise — with no
degradation marker and no confidence cap. -/
theorem claim5_exhaustion_uses_fallback_model :
    (∀ (ept : String → String) (fc : String),
      (cv_parser_fallback ept fc).degraded = true ∧
      (cv_parser_fallback ept fc).success = true ∧
      (cv_parser_fallback ept fc).message =
        "Limited parsing available - LLM service unavailable") ∧
    (∀ (tmo : Nat) (oracle : Nat → LLMOutcome) (now : Nat),
      oracle 0 = LLMOutcome.raises LLMError.timeoutError →
      oracle 1 = LLMOutcome.raises LLMError.timeoutError →
      oracle 2 = LLMOutcome.raises LLMError.timeoutError →
      call_with_retry ⟨3, tmo, mkCircuitBreaker 5 60⟩ oracle now =
        (match oracle 3 with
         | LLMOutcome.success r => Except.ok r
         | LLMOutcome.raises e => Except.error (CallException.uncaught e),
         { cb := ⟨5, 60, 3, some (now + 3), CBState.CLOSED⟩,
           now := now + 3, calls := 4 })) := by
  constructor
  · intro ept fc
    exact ⟨rfl, rfl, rfl⟩
  · exact call_exhaust_three

/-- Claim C5, witness: the extractor marking at a concrete input, and the
exhaustion run with an oracle whose three primary calls time out and whose
fallback-model call succeeds. -/
theorem claim5_witness :
    ((cv_parser_fallback id "raw cv text").degraded = true ∧
     (cv_parser_fallback id "raw cv text").success = true ∧
     (cv_parser_fallback id "raw cv text").message =
       "Limited parsing available - LLM service unavailable") ∧
    call_with_retry ⟨3, 60, mkCircuitBreaker 5 60⟩
        (fun i => if i < 3 then LLMOutcome.raises LLMError.timeoutError
                  else LLMOutcome.success "fallback model reply") 10 =
      (Except.ok "fallback model reply",
       { cb := ⟨5, 60, 3, some 13, CBState.CLOSED⟩, now := 13, calls := 4 }) :=
  ⟨claim5_exhaustion_uses_fallback_model.1 id "raw cv text",
   claim5_exhaustion_uses_fallback_model.2 60
     (fun i => if i < 3 then LLMOutcome.raises LLMError.timeoutError
               else LLMOutcome.success "fallback model reply") 10
     (by decide) (by decide) (by decide)⟩

/-- Claim C6, counterexample.  An authentication/configuration error on the
first attempt is indeed not retried (a single network call), but it surfaces
as a raised exception, not as a degraded result containing an explanatory
note, refuting the second half of the claim. -/
theorem claim6_counterexample :
    call_with_retry ⟨3, 60, mkCircuitBreaker 5 60⟩
        (fun _ => LLMOutcome.raises (LLMError.otherError "missing ANTHROPIC_API_KEY")) 7 =
      (Except.error (CallException.uncaught (LLMError.otherError "missing ANTHROPIC_API_KEY")),
       { cb := mkCircuitBreaker 5 60, now := 7, calls := 1 }) := rfl

/-- Claim C6, amended.  An error other than timeout/connection on the first
attempt is never retried: exactly one network call is made and the original
exception propagates to the caller immediately; the breaker's failure counter
is not touched (`record_failure` is not called for it). -/
theorem claim6_fatal_bypasses_retry :
    ∀ (client : LLMClient) (oracle : Nat → LLMOutcome) (now : Nat) (m : String) (ra : Nat),
      client.retry_attempts = ra + 1 →
      (client.circuit_breaker.is_open now).1 = false →
      oracle 0 = LLMOutcome.raises (LLMError.otherError m) →
      (call_with_retry client oracle now =
        (Except.error (CallException.uncaught (LLMError.otherError m)),
         { cb := (client.circuit_breaker.is_open now).2, now := now, calls := 1 }) ∧
       ((call_with_retry client oracle now).2).cb.failure_count =
         client.circuit_breaker.failure_count) := by
  intro client oracle now m ra hra hopen h0
  have h := call_fatal_propagates client oracle now m ra hra hopen h0
  refine ⟨h, ?_⟩
  rw [h]
  exact is_open_preserves_count _ _

/-- Claim C6, witness: the amended theorem applied to a fresh client hit by a
concrete authentication error. -/
theorem claim6_witness :
    (call_with_retry ⟨3, 60, mkCircuitBreaker 5 60⟩
        (fun _ => LLMOutcome.raises (LLMError.otherError "invalid api key")) 0 =
      (Except.error (CallException.uncaught (LLMError.otherError "invalid api key")),
       { cb := mkCircuitBreaker 5 60, now := 0, calls := 1 }) ∧
     ((call_with_retry ⟨3, 60, mkCircuitBreaker 5 60⟩
        (fun _ => LLMOutcome.raises (LLMError.otherError "invalid api key")) 0).2).cb.failure_count =
       (mkCircuitBreaker 5 60).failure_count) :=
  claim6_fatal_bypasses_retry _ _ 0 "invalid api key" 2 rfl (by decide) rfl

/-- Claim C7 (confirmed, against the spec-modelled validation).  Every
required field missing from the parsed object appears in the validated result
with the empty default, a corresponding note is in `parsing_notes`, fields
that were present are preserved, and the completeness score equals
(fields present / fields expected) and lies in [0, 1]. -/
theorem claim7_missing_fields_defaulted :
    ∀ (required : List String) (obj : List (String × String)) (f : String),
      f ∈ required → fieldPresent obj f = false →
      ((f, "") ∈ (validate_parsed_data required obj).fields ∧
       ("Missing required field: " ++ f) ∈ (validate_parsed_data required obj).parsing_notes ∧
       (∀ p, p ∈ obj → p ∈ (validate_parsed_data required obj).fields) ∧
       (validate_parsed_data required obj).completeness =
         ((required.countP (fun g => fieldPresent obj g) : ℚ) / (required.length : ℚ)) ∧
       0 ≤ (validate_parsed_data required obj).completeness ∧
       (validate_parsed_data required obj).completeness ≤ 1) := by
  intro required obj f hf hmiss
  have hmem : f ∈ required.filter (fun g => !(fieldPresent obj g)) := by
    rw [List.mem_filter]
    exact ⟨hf, by rw [hmiss]; rfl⟩
  refine ⟨?_, ?_, ?_, rfl, ?_, ?_⟩
  · simp only [validate_parsed_data, List.mem_append]
    right
    exact List.mem_map_of_mem _ hmem
  · simp only [validate_parsed_data]
    exact List.mem_map_of_mem _ hmem
  · intro p hp
    simp only [validate_parsed_data, List.mem_append]
    exact Or.inl hp
  · simp only [validate_parsed_data]
    positivity
  · simp only [validate_parsed_data]
    rw [div_le_one]
    · exact_mod_cast List.countP_le_length _
    · have hlen : 0 < required.length := List.length_pos.mpr (List.ne_nil_of_mem hf)
      exact_mod_cast hlen

/-- Claim C7, witness: a parsed object missing the required `skills` field. -/
theorem claim7_witness :
    "skills" ∈ ["job_title", "skills"] ∧
    fieldPresent [("job_title", "Engineer")] "skills" = false ∧
    ("skills", "") ∈
      (validate_parsed_data ["job_title", "skills"] [("job_title", "Engineer")]).fields ∧
    ("Missing required field: " ++ "skills") ∈
      (validate_parsed_data ["job_title", "skills"] [("job_title", "Engineer")]).parsing_notes :=
  ⟨by decide, by decide,
   (claim7_missing_fields_defaulted _ _ "skills" (by decide) (by decide)).1,
   (claim7_missing_fields_defaulted _ _ "skills" (by decide) (by decide)).2.1⟩

/-- Claim C8 (confirmed, against the spec-modelled fence stripping).  For any
strict parse function and any response text `j` that does not itself start
with a code fence, processing (strip fences, then parse) the ```json-wrapped
form of `j` yields exactly the same parsed result as processing `j`
unwrapped. -/
theorem claim8_fence_strip_equivalence :
    ∀ {α : Type} (parse : List Char → α) (j : List Char),
      j.take 8 ≠ fence_open →
      parse (strip_code_fences (wrap_json_fences j)) = parse (strip_code_fences j) := by
  intro α parse j h
  rw [strip_wrap, strip_unwrapped j h]

/-- Claim C8, witness: a concrete JSON object body, with parsing instantiated
by a concrete function on the cleaned text. -/
theorem claim8_witness :
    ("[1, 2]").data.take 8 ≠ fence_open ∧
    (fun l : List Char => l.length)
        (strip_code_fences (wrap_json_fences (("[1, 2]").data))) =
      (fun l : List Char => l.length) (strip_code_fences (("[1, 2]").data)) :=
  ⟨by decide, claim8_fence_strip_equivalence _ _ (by decide)⟩

/-- Claim C9 (confirmed).  `is_open` never changes the failure counter (so
the OPEN-to-HALF_OPEN transition keeps it); on every reachable HALF_OPEN
breaker the counter is at or above the threshold, so one `record_failure`
immediately returns it to OPEN; and after any `record_failure` on a
reachable breaker the state is OPEN if and only if the (new) failure count
has reached the threshold. -/
theorem claim9_breaker_counter_invariant :
    (∀ (cb : CircuitBreaker) (now : Nat),
      ((cb.is_open now).2).failure_count = cb.failure_count) ∧
    (∀ cb : CircuitBreaker, Reachable cb → cb.state = CBState.HALF_OPEN →
      cb.failure_threshold ≤ cb.failure_count) ∧
    (∀ (cb : CircuitBreaker) (now : Nat), Reachable cb → cb.state = CBState.HALF_OPEN →
      (cb.record_failure now).state = CBState.OPEN) ∧
    (∀ (cb : CircuitBreaker) (now : Nat), Reachable cb →
      ((cb.record_failure now).state = CBState.OPEN ↔
        (cb.record_failure now).failure_threshold ≤ (cb.record_failure now).failure_count)) := by
  refine ⟨is_open_preserves_count, ?_, ?_, ?_⟩
  · intro cb hr hst
    exact reachable_invariant cb hr (Or.inr hst)
  · intro cb now hr hst
    have hle := reachable_invariant cb hr (Or.inr hst)
    simp only [CircuitBreaker.record_failure]
    rw [if_pos (by omega)]
  · intro cb now hr
    simp only [CircuitBreaker.record_failure, record_failure_threshold]
    constructor
    · intro hopen
      by_cases hc : cb.failure_threshold ≤ cb.failure_count + 1
      · exact hc
      · rw [if_neg hc] at hopen
        have := reachable_invariant cb hr (Or.inl hopen)
        omega
    · intro hle
      rw [if_pos hle]

/-- Claim C9, witness: a concrete HALF_OPEN breaker reached by one failure
(threshold 1) followed by an `is_open` check past the cooldown. -/
theorem claim9_witness :
    (((⟨5, 60, 2, some 7, CBState.CLOSED⟩ : CircuitBreaker).is_open 100).2).failure_count = 2 ∧
    (((mkCircuitBreaker 1 60).record_failure 0).is_open 61).2.failure_threshold ≤
      (((mkCircuitBreaker 1 60).record_failure 0).is_open 61).2.failure_count ∧
    (((((mkCircuitBreaker 1 60).record_failure 0).is_open 61).2).record_failure 70).state =
      CBState.OPEN ∧
    ((((((mkCircuitBreaker 1 60).record_failure 0).is_open 61).2).record_failure 70).state =
        CBState.OPEN ↔
      (((((mkCircuitBreaker 1 60).record_failure 0).is_open 61).2).record_failure
          70).failure_threshold ≤
        (((((mkCircuitBreaker 1 60).record_failure 0).is_open 61).2).record_failure
          70).failure_count) := by
  have h1 : Reachable (mkCircuitBreaker 1 60) := Reachable.init 1 60
  have h2 := Reachable.stepFailure _ 0 h1
  have h3 := Reachable.stepIsOpen _ 61 h2
  exact ⟨claim9_breaker_counter_invariant.1 _ 100,
    claim9_breaker_counter_invariant.2.1 _ h3 rfl,
    claim9_breaker_counter_invariant.2.2.1 _ 70 h3 rfl,
    claim9_breaker_counter_invariant.2.2.2 _ 70 h3⟩

/-- Claim C10 (confirmed).  `flushEventQueue` leaves the queue unchanged (and
delivers nothing) when offline or empty; otherwise it empties the queue
before delivery, handing over exactly the queued events, which are never
re-queued (the sent batch plus the remaining queue always account for each
tracked event exactly once); and `trackEvent` appends exactly one event and
triggers a flush exactly when online with at least 5 events queued (counting
the one just appended). -/
theorem claim10_analytics_queue :
    (∀ s : AnalyticsState, s.isOnline = false ∨ s.eventQueue = [] →
      flushEventQueue s = (s, [])) ∧
    (∀ s : AnalyticsState, s.isOnline = true → s.eventQueue ≠ [] →
      flushEventQueue s = ({ s with eventQueue := [] }, s.eventQueue)) ∧
    (∀ (s : AnalyticsState) (env : PageEnv) (et ea : String) (el ei : Option String)
        (md : List (String × String)),
      ((trackEvent s env et ea el ei md).1).eventQueue ++ (trackEvent s env et ea el ei md).2 =
        s.eventQueue ++ [mkEventData s env et ea el ei md]) ∧
    (∀ (s : AnalyticsState) (env : PageEnv) (et ea : String) (el ei : Option String)
        (md : List (String × String)),
      (trackEvent s env et ea el ei md).2 ≠ [] ↔
        (s.isOnline = true ∧ 5 ≤ s.eventQueue.length + 1)) := by
  refine ⟨?_, ?_, ?_, ?_⟩
  · intro s h
    simp only [flushEventQueue, if_pos h]
  · intro s h1 h2
    simp only [flushEventQueue]
    rw [if_neg]
    rintro (hc | hc)
    · rw [h1] at hc; exact absurd hc (by decide)
    · exact h2 hc
  · intro s env et ea el ei md
    simp only [trackEvent]
    split
    · rename_i hcond
      simp only [flushEventQueue]
      rw [if_neg]
      · simp
      · rintro (hc | hc)
        · simp only [hcond.1] at hc
          exact absurd hc (by decide)
        · simp at hc
    · simp
  · intro s env et ea el ei md
    simp only [trackEvent]
    split
    · rename_i hcond
      simp only [flushEventQueue]
      rw [if_neg]
      · constructor
        · intro _
          refine ⟨hcond.1, ?_⟩
          have := hcond.2
          simpa using this
        · intro _
          simp
      · rintro (hc | hc)
        · simp only [hcond.1] at hc
          exact absurd hc (by decide)
        · simp at hc
    · rename_i hcond
      constructor
      · intro h; exact absurd rfl h
      · intro h
        exfalso
        apply hcond
        refine ⟨h.1, ?_⟩
        simpa using h.2

/-- Claim C10, witness: the four parts applied at concrete analytics
states. -/
theorem claim10_witness :
    flushEventQueue ⟨"s1", none, [], false⟩ = (⟨"s1", none, [], false⟩, []) ∧
    flushEventQueue
        ⟨"s1", none, [⟨"click", "button_click", none, none, [], "u", "t", "ts"⟩], true⟩ =
      (⟨"s1", none, [], true⟩,
       [⟨"click", "button_click", none, none, [], "u", "t", "ts"⟩]) ∧
    (((trackEvent ⟨"s1", none, [], true⟩ ⟨"u", "t", "ts", "ua", 800, 600⟩
        "click" "button_click" none none []).1).eventQueue ++
      (trackEvent ⟨"s1", none, [], true⟩ ⟨"u", "t", "ts", "ua", 800, 600⟩
        "click" "button_click" none none []).2 =
      [] ++ [mkEventData ⟨"s1", none, [], true⟩ ⟨"u", "t", "ts", "ua", 800, 600⟩
        "click" "button_click" none none []]) ∧
    ((trackEvent ⟨"s1", none, [], true⟩ ⟨"u", "t", "ts", "ua", 800, 600⟩
        "click" "button_click" none none []).2 ≠ [] ↔
      ((true : Bool) = true ∧ 5 ≤ ([] : List AnalyticsEvent).length + 1)) :=
  ⟨claim10_analytics_queue.1 _ (Or.inl rfl),
   claim10_analytics_queue.2.1 _ rfl (by simp),
   claim10_analytics_queue.2.2.1 _ _ "click" "button_click" none none [],
   claim10_analytics_queue.2.2.2 _ _ "click" "button_click" none none []⟩

end CVAnalysis
